import Mathlib

/-!
Shallow embedding of `src/HelloTriangle/src/first_app.cpp` (class `lve::FirstApp`).

The frame coordinator is modelled as explicit state passing over `AppState`,
with an event trace (`List Event`) recording the externally visible calls the
C++ code makes (surface queries, device waits, chain construction, command
buffer allocation, recording, submission).  External collaborators
(`LveSwapChain`, `LveWindow`, the Vulkan driver) are modelled by their
observable inputs: the stream of surface extents returned by
`lveWindow.getExtent()`, the image count the platform chooses for a newly
constructed chain, and the `VkResult` codes returned by acquire / begin / end /
submit.  C++ `throw` is modelled by `Except String`; the potentially
non-terminating minimized-window wait loop is modelled with fuel (`Option`).
-/

namespace LveApp

/-- Model of `VkExtent2D`: surface extent in pixels, as returned by `lveWindow.getExtent()`. -/
structure Extent where
  width : Nat
  height : Nat
  deriving DecidableEq, Repr

/-- The `VkResult` codes `first_app.cpp` distinguishes: `VK_SUCCESS`,
`VK_SUBOPTIMAL_KHR`, `VK_ERROR_OUT_OF_DATE_KHR`, and any other code. -/
inductive VkResult where
  | success
  | suboptimalKHR
  | errorOutOfDateKHR
  | otherError (code : Int)
  deriving DecidableEq, Repr

/-- Constant `VK_SHADER_STAGE_VERTEX_BIT` from the Vulkan headers. -/
def VK_SHADER_STAGE_VERTEX_BIT : Nat := 1

/-- Constant `VK_SHADER_STAGE_FRAGMENT_BIT` from the Vulkan headers. -/
def VK_SHADER_STAGE_FRAGMENT_BIT : Nat := 16

/-- Model of `struct SimplePushConstantData` (first_app.cpp lines 15-18): a
`glm::vec2 offset` and an `alignas(16) glm::vec3 color`.  Float components
are modelled as rationals. -/
structure SimplePushConstantData where
  offset : ℚ × ℚ
  color : ℚ × ℚ × ℚ
  deriving DecidableEq, Repr

/-- Value of `sizeof(SimplePushConstantData)`: `glm::vec2 offset` occupies bytes 0..7,
`alignas(16)` places `color` at byte 16, `glm::vec3` is 12 bytes, and the
struct's 16-byte alignment pads the total size to 32. -/
def sizeofSimplePushConstantData : Nat := 32

/-- The push-constant payload the recording loop builds for instance `j`
(first_app.cpp lines 191-193):
the offset is set to x-component 0 and y-component `-0.4f + j * 0.25f`, and
the color to red 0, green 0 and blue `0.2f + 0.2f * j`. -/
def pushData (j : Nat) : SimplePushConstantData :=
  { offset := (0, -0.4 + (j : ℚ) * 0.25)
    color := (0, 0, 0.2 + 0.2 * (j : ℚ)) }

/-- Model of `VkPushConstantRange` (the fields `createPipelineLayout` sets). -/
structure VkPushConstantRange where
  stageFlags : Nat
  offset : Nat
  size : Nat
  deriving DecidableEq, Repr

/-- The pipeline layout's observable contents (the fields of
`VkPipelineLayoutCreateInfo` that `createPipelineLayout` sets). -/
structure PipelineLayoutInfo where
  setLayoutCount : Nat
  pushConstantRanges : List VkPushConstantRange
  deriving DecidableEq, Repr

/-- Model of `FirstApp::createPipelineLayout` (first_app.cpp lines 69-85): one push
constant range with stage flags `VK_SHADER_STAGE_VERTEX_BIT | VK_SHADER_STAGE_FRAGMENT_BIT`,
offset 0, size `sizeof(SimplePushConstantData)`; no descriptor set layouts. -/
def createPipelineLayout : PipelineLayoutInfo :=
  { setLayoutCount := 0
    pushConstantRanges :=
      [{ stageFlags := VK_SHADER_STAGE_VERTEX_BIT ||| VK_SHADER_STAGE_FRAGMENT_BIT
         offset := 0
         size := sizeofSimplePushConstantData }] }

/-- Model of `LveModel::Vertex`: 2D position and RGB color (see `loadModels`). -/
structure Vertex where
  position : ℚ × ℚ
  color : ℚ × ℚ × ℚ
  deriving DecidableEq, Repr

/-- Model of `FirstApp::Sierpinski` (first_app.cpp lines 54-67).  `depth` is modelled as
`Nat` (the callers only pass non-negative depths).  The C++ routine appends to
`vertices` by `push_back`; here the updated list is returned.  The depth-0
case pushes the three corner positions, leaving each pushed vertex's color
value-initialized to zero. -/
def Sierpinski (depth : Nat) (width height px py : ℚ) (vertices : List Vertex) :
    List Vertex :=
  match depth with
  | 0 =>
      vertices ++
        [{ position := (px, py), color := (0, 0, 0) },
         { position := (px + width / 2, py - height), color := (0, 0, 0) },
         { position := (px + width, py), color := (0, 0, 0) }]
  | d + 1 =>
      let v1 := Sierpinski d (width / 2) (height / 2) px py vertices
      let v2 := Sierpinski d (width / 2) (height / 2) (px + width / 4) (py - height / 2) v1
      Sierpinski d (width / 2) (height / 2) (px + width / 2) py v2

/-- The observable data of an `LveSwapChain`: the extent it was constructed
with and the image count the platform chose for it. -/
structure SwapChainObj where
  extent : Extent
  imageCount : Nat
  deriving DecidableEq, Repr

/-- The mutable members of `FirstApp` touched by the frame lifecycle:
`lveSwapChain` (`nullptr` initially), `commandBuffers` (handles, so that reuse
vs. reallocation is observable; `nextHandle` is the allocator counter),
`lvePipeline` (modelled by a generation counter bumped by every
`createPipeline`), `pipelineLayout` and `lveModel`. -/
structure AppState where
  swapChain : Option SwapChainObj
  commandBuffers : List Nat
  nextHandle : Nat
  pipelineGen : Nat
  pipelineLayout : PipelineLayoutInfo
  lveModel : List Vertex
  deriving DecidableEq, Repr

/-- Externally visible calls made by the frame coordinator, in program order. -/
inductive Event where
  | queryExtent (e : Extent)
  | waitEvents
  | deviceWaitIdle
  | constructChain (extent : Extent) (oldChainPassed : Bool)
  | freeCmdBuffers
  | allocCmdBuffers (n : Nat)
  | createPipeline
  | acquire (result : VkResult)
  | beginRecord (imageIndex : Nat)
  | beginRenderPass (imageIndex : Nat)
  | setViewport
  | setScissor
  | bindPipeline
  | bindModel
  | pushConstants (stageFlags offset size : Nat) (data : SimplePushConstantData)
  | draw
  | endRenderPass
  | endRecord (imageIndex : Nat)
  | submit (imageIndex : Nat) (result : VkResult)
  | resetResizedFlag
  deriving DecidableEq, Repr

/-- Model of `FirstApp::createCommandBuffers` (first_app.cpp lines 126-139):
`commandBuffers.resize(lveSwapChain->imageCount())` then
`vkAllocateCommandBuffers` fills them with fresh handles.  The C++ code
dereferences `lveSwapChain` unconditionally; it is only ever called with a
live chain, so the `none` case (a null dereference in C++) is left inert. -/
def createCommandBuffers (s : AppState) : AppState :=
  match s.swapChain with
  | none => s
  | some c =>
      { s with
        commandBuffers := (List.range c.imageCount).map (fun i => s.nextHandle + i)
        nextHandle := s.nextHandle + c.imageCount }

/-- Model of `FirstApp::freeCommandBuffers` (first_app.cpp lines 141-149):
`vkFreeCommandBuffers` then `commandBuffers.clear()`. -/
def freeCommandBuffers (s : AppState) : AppState :=
  { s with commandBuffers := [] }

/-- Model of `FirstApp::createPipeline` (first_app.cpp lines 110-124): builds a fresh
`LvePipeline` against the current chain's render pass, replacing the old one. -/
def createPipeline (s : AppState) : AppState :=
  { s with pipelineGen := s.pipelineGen + 1 }

/-- The `while (extent.width == 0 || extent.height == 0)` loop of
`recreateSwapChain` (first_app.cpp lines 89-92): while the extent is
degenerate, re-query `lveWindow.getExtent()` and `glfwWaitEvents()`.
`g i` is the extent the `i`-th `getExtent()` call returns; `fuel` bounds the
number of loop iterations (the C++ loop blocks forever if the window never
leaves the degenerate state, modelled by `none`). -/
def waitLoop (g : Nat → Extent) : (fuel i : Nat) → Extent → Option (Extent × List Event)
  | 0, _, e =>
      if e.width = 0 ∨ e.height = 0 then none else some (e, [])
  | fuel + 1, i, e =>
      if e.width = 0 ∨ e.height = 0 then
        match waitLoop g fuel (i + 1) (g i) with
        | none => none
        | some (r, evs) =>
            some (r, Event.queryExtent (g i) :: Event.waitEvents :: evs)
      else
        some (e, [])

/-- Model of `auto extent = lveWindow.getExtent();` followed by the degenerate-extent
wait loop (first_app.cpp lines 88-92): the extent used for chain construction
together with the query/wait events that obtained it. -/
def pollExtent (g : Nat → Extent) (fuel : Nat) : Option (Extent × List Event) :=
  match waitLoop g fuel 1 (g 0) with
  | none => none
  | some (e, evs) => some (e, Event.queryExtent (g 0) :: evs)

/-- Model of `FirstApp::recreateSwapChain` (first_app.cpp lines 87-108): poll the
extent until non-degenerate, `vkDeviceWaitIdle`, construct the new
`LveSwapChain` (passing the old one when it exists), free and reallocate the
command buffers when the new image count differs from the current set size,
and always `createPipeline()`.  `newCount` is the image count the platform
chooses for the new chain. -/
def recreateSwapChain (s : AppState) (g : Nat → Extent) (fuel newCount : Nat) :
    Option (AppState × List Event) :=
  match pollExtent g fuel with
  | none => none
  | some (extent, pollEvs) =>
      let evs := pollEvs ++ [Event.deviceWaitIdle]
      match s.swapChain with
      | none =>
          let s1 := { s with swapChain := some ⟨extent, newCount⟩ }
          some (createPipeline s1,
            evs ++ [Event.constructChain extent false, Event.createPipeline])
      | some _ =>
          let s1 := { s with swapChain := some ⟨extent, newCount⟩ }
          if newCount ≠ s1.commandBuffers.length then
            let s2 := createCommandBuffers (freeCommandBuffers s1)
            some (createPipeline s2,
              evs ++ [Event.constructChain extent true,
                Event.freeCmdBuffers, Event.allocCmdBuffers newCount,
                Event.createPipeline])
          else
            some (createPipeline s1,
              evs ++ [Event.constructChain extent true, Event.createPipeline])

/-- Model of `FirstApp::recordCommandBuffer` (first_app.cpp lines 151-210), with the
`VkResult`s of `vkBeginCommandBuffer` / `vkEndCommandBuffer` as inputs: begin
(throwing on failure), begin the render pass, set viewport and scissor, bind
pipeline and model, then for `j = 0..3` push `pushData j` with stage flags
`VERTEX | FRAGMENT`, offset 0, size `sizeof(SimplePushConstantData)` and draw;
end the render pass and end recording (throwing on failure). -/
def recordCommandBuffer (imageIndex : Nat) (beginResult endResult : VkResult) :
    Except String (List Event) :=
  if beginResult ≠ VkResult.success then
    Except.error ("failed to begin recording command buffer!")
  else
    let setup := [Event.beginRecord imageIndex, Event.beginRenderPass imageIndex,
      Event.setViewport, Event.setScissor, Event.bindPipeline, Event.bindModel]
    let draws := (List.range 4).map (fun j =>
      [Event.pushConstants (VK_SHADER_STAGE_VERTEX_BIT ||| VK_SHADER_STAGE_FRAGMENT_BIT)
          0 sizeofSimplePushConstantData (pushData j),
        Event.draw])
    let body := setup ++ draws.flatten ++ [Event.endRenderPass]
    if endResult ≠ VkResult.success then
      Except.error ("failed to record command buffer!")
    else
      Except.ok (body ++ [Event.endRecord imageIndex])

/-- The per-iteration external inputs of `FirstApp::drawFrame`: the image
index and `VkResult` of `acquireNextImage`, the results of begin/end recording,
the result of `submitCommandBuffers`, the window's resized flag, the extent
stream and the image count of a chain rebuilt this iteration. -/
structure FrameInput where
  imageIndex : Nat
  acquireResult : VkResult
  beginResult : VkResult
  endResult : VkResult
  submitResult : VkResult
  resized : Bool
  g : Nat → Extent
  fuel : Nat
  newImageCount : Nat

/-- Model of `FirstApp::drawFrame` (first_app.cpp lines 212-236).  `none` models a
frame blocked forever in the minimized-window wait loop; `Except.error`
models a `throw` escaping `run()`. -/
def drawFrame (s : AppState) (inp : FrameInput) :
    Option (Except String (AppState × List Event)) :=
  let acqEv := Event.acquire inp.acquireResult
  if inp.acquireResult = VkResult.errorOutOfDateKHR then
    match recreateSwapChain s inp.g inp.fuel inp.newImageCount with
    | none => none
    | some (s', tr) => some (Except.ok (s', acqEv :: tr))
  else if inp.acquireResult ≠ VkResult.success ∧
      inp.acquireResult ≠ VkResult.suboptimalKHR then
    some (Except.error ("failed to acquire swap chain image!"))
  else
    match recordCommandBuffer inp.imageIndex inp.beginResult inp.endResult with
    | Except.error m => some (Except.error m)
    | Except.ok recEvs =>
        let evs := acqEv :: recEvs ++ [Event.submit inp.imageIndex inp.submitResult]
        if inp.submitResult = VkResult.errorOutOfDateKHR ∨
            inp.submitResult = VkResult.suboptimalKHR ∨ inp.resized then
          match recreateSwapChain s inp.g inp.fuel inp.newImageCount with
          | none => none
          | some (s', tr) =>
              some (Except.ok (s', evs ++ (Event.resetResizedFlag :: tr)))
        else if inp.submitResult ≠ VkResult.success then
          some (Except.error ("failed to present swap chain image!"))
        else
          some (Except.ok (s, evs))

/-! ### Concrete fixtures used by the witness theorems -/

/-- A surface that constantly reports an 800×600 extent. -/
def exG : Nat → Extent := fun _ => ⟨800, 600⟩

/-- An example live chain: 800×600, three images. -/
def exChain : SwapChainObj := ⟨⟨800, 600⟩, 3⟩

/-- An example steady state: chain of three images, three command buffers. -/
def exState : AppState :=
  { swapChain := some exChain
    commandBuffers := [0, 1, 2]
    nextHandle := 3
    pipelineGen := 1
    pipelineLayout := createPipelineLayout
    lveModel := [] }

/-- State after `recreateSwapChain exState exG 0 2` (image count changes 3→2). -/
def exStateAfterRealloc : AppState :=
  { swapChain := some ⟨⟨800, 600⟩, 2⟩
    commandBuffers := [3, 4]
    nextHandle := 5
    pipelineGen := 2
    pipelineLayout := createPipelineLayout
    lveModel := [] }

/-- Trace of `recreateSwapChain exState exG 0 2`. -/
def exTraceRealloc : List Event :=
  [Event.queryExtent ⟨800, 600⟩, Event.deviceWaitIdle,
   Event.constructChain ⟨800, 600⟩ true, Event.freeCmdBuffers,
   Event.allocCmdBuffers 2, Event.createPipeline]

/-- State after `recreateSwapChain exState exG 0 3` (image count unchanged). -/
def exStateAfterReuse : AppState :=
  { swapChain := some exChain
    commandBuffers := [0, 1, 2]
    nextHandle := 3
    pipelineGen := 2
    pipelineLayout := createPipelineLayout
    lveModel := [] }

/-- Trace of `recreateSwapChain exState exG 0 3`. -/
def exTraceReuse : List Event :=
  [Event.queryExtent ⟨800, 600⟩, Event.deviceWaitIdle,
   Event.constructChain ⟨800, 600⟩ true, Event.createPipeline]

/-- The event trace of a successful `recordCommandBuffer` on image `i`. -/
def recordedTrace (i : Nat) : List Event :=
  [Event.beginRecord i, Event.beginRenderPass i, Event.setViewport,
   Event.setScissor, Event.bindPipeline, Event.bindModel,
   Event.pushConstants (VK_SHADER_STAGE_VERTEX_BIT ||| VK_SHADER_STAGE_FRAGMENT_BIT)
     0 sizeofSimplePushConstantData (pushData 0), Event.draw,
   Event.pushConstants (VK_SHADER_STAGE_VERTEX_BIT ||| VK_SHADER_STAGE_FRAGMENT_BIT)
     0 sizeofSimplePushConstantData (pushData 1), Event.draw,
   Event.pushConstants (VK_SHADER_STAGE_VERTEX_BIT ||| VK_SHADER_STAGE_FRAGMENT_BIT)
     0 sizeofSimplePushConstantData (pushData 2), Event.draw,
   Event.pushConstants (VK_SHADER_STAGE_VERTEX_BIT ||| VK_SHADER_STAGE_FRAGMENT_BIT)
     0 sizeofSimplePushConstantData (pushData 3), Event.draw,
   Event.endRenderPass, Event.endRecord i]

/-- Frame input: acquire returns `VK_ERROR_OUT_OF_DATE_KHR` (Stale). -/
def exInpStale : FrameInput :=
  { imageIndex := 0, acquireResult := VkResult.errorOutOfDateKHR
    beginResult := VkResult.success, endResult := VkResult.success
    submitResult := VkResult.success, resized := false
    g := exG, fuel := 0, newImageCount := 3 }

/-- Trace of `drawFrame exState exInpStale`. -/
def exTraceStale : List Event :=
  Event.acquire VkResult.errorOutOfDateKHR :: exTraceReuse

/-- Frame input: acquire returns `VK_SUBOPTIMAL_KHR`, submit succeeds cleanly
and no resize was flagged. -/
def exInpSubopt : FrameInput :=
  { imageIndex := 0, acquireResult := VkResult.suboptimalKHR
    beginResult := VkResult.success, endResult := VkResult.success
    submitResult := VkResult.success, resized := false
    g := exG, fuel := 0, newImageCount := 3 }

/-- Trace of `drawFrame exState exInpSubopt`: record and submit, no rebuild. -/
def exTraceSubopt : List Event :=
  Event.acquire VkResult.suboptimalKHR ::
    (recordedTrace 0 ++ [Event.submit 0 VkResult.success])

/-- Frame input: acquire returns `VK_SUBOPTIMAL_KHR` and submit also returns
`VK_SUBOPTIMAL_KHR`, so the post-submit rebuild triggers. -/
def exInpSuboptRebuild : FrameInput :=
  { imageIndex := 0, acquireResult := VkResult.suboptimalKHR
    beginResult := VkResult.success, endResult := VkResult.success
    submitResult := VkResult.suboptimalKHR, resized := false
    g := exG, fuel := 0, newImageCount := 3 }

/-- Trace of `drawFrame exState exInpSuboptRebuild`. -/
def exTraceSuboptRebuild : List Event :=
  Event.acquire VkResult.suboptimalKHR ::
    (recordedTrace 0 ++ [Event.submit 0 VkResult.suboptimalKHR]) ++
    (Event.resetResizedFlag :: exTraceReuse)

/-- Frame input: `vkBeginCommandBuffer` fails. -/
def exInpBeginFail : FrameInput :=
  { imageIndex := 0, acquireResult := VkResult.success
    beginResult := VkResult.otherError (-1), endResult := VkResult.success
    submitResult := VkResult.success, resized := false
    g := exG, fuel := 0, newImageCount := 3 }

/-- Frame input: `vkEndCommandBuffer` fails. -/
def exInpEndFail : FrameInput :=
  { imageIndex := 0, acquireResult := VkResult.success
    beginResult := VkResult.success, endResult := VkResult.otherError (-1)
    submitResult := VkResult.success, resized := false
    g := exG, fuel := 0, newImageCount := 3 }

/-- Frame input: submission returns an unexpected error code. -/
def exInpPresentFail : FrameInput :=
  { imageIndex := 0, acquireResult := VkResult.success
    beginResult := VkResult.success, endResult := VkResult.success
    submitResult := VkResult.otherError (-1), resized := false
    g := exG, fuel := 0, newImageCount := 3 }

/-- Frame input: acquire returns an unexpected error code. -/
def exInpAcquireFail : FrameInput :=
  { imageIndex := 0, acquireResult := VkResult.otherError (-1)
    beginResult := VkResult.success, endResult := VkResult.success
    submitResult := VkResult.success, resized := false
    g := exG, fuel := 0, newImageCount := 3 }

/-! ### Helper lemmas about the extent-polling loop -/

/-- An extent returned by the degenerate-extent wait loop is non-degenerate. -/
theorem waitLoop_nondegenerate (g : Nat → Extent) :
    ∀ fuel i e r evs, waitLoop g fuel i e = some (r, evs) →
      r.width ≠ 0 ∧ r.height ≠ 0 := by
  intro fuel
  induction fuel with
  | zero =>
      intro i e r evs h
      simp only [waitLoop] at h
      split at h
      · exact absurd h (by simp)
      · rename_i hd
        push_neg at hd
        obtain ⟨he, -⟩ := Prod.mk.inj (Option.some.inj h)
        exact he ▸ hd
  | succ fuel ih =>
      intro i e r evs h
      simp only [waitLoop] at h
      split at h
      · cases hw : waitLoop g fuel (i + 1) (g i) with
        | none => rw [hw] at h; exact absurd h (by simp)
        | some p =>
            obtain ⟨r', evs'⟩ := p
            rw [hw] at h
            obtain ⟨hr, -⟩ := Prod.mk.inj (Option.some.inj h)
            exact hr ▸ ih (i + 1) (g i) r' evs' hw
      · rename_i hd
        push_neg at hd
        obtain ⟨he, -⟩ := Prod.mk.inj (Option.some.inj h)
        exact he ▸ hd

/-- Every event emitted by the wait loop is a surface query or an event wait. -/
theorem waitLoop_events (g : Nat → Extent) :
    ∀ fuel i e r evs, waitLoop g fuel i e = some (r, evs) →
      ∀ ev ∈ evs, (∃ x, ev = Event.queryExtent x) ∨ ev = Event.waitEvents := by
  intro fuel
  induction fuel with
  | zero =>
      intro i e r evs h ev hev
      simp only [waitLoop] at h
      split at h
      · exact absurd h (by simp)
      · obtain ⟨-, hevs⟩ := Prod.mk.inj (Option.some.inj h)
        rw [← hevs] at hev
        exact absurd hev (List.not_mem_nil ev)
  | succ fuel ih =>
      intro i e r evs h ev hev
      simp only [waitLoop] at h
      split at h
      · cases hw : waitLoop g fuel (i + 1) (g i) with
        | none => rw [hw] at h; exact absurd h (by simp)
        | some p =>
            obtain ⟨r', evs'⟩ := p
            rw [hw] at h
            obtain ⟨-, hevs⟩ := Prod.mk.inj (Option.some.inj h)
            rw [← hevs, List.mem_cons] at hev
            rcases hev with rfl | hev
            · exact Or.inl ⟨g i, rfl⟩
            rw [List.mem_cons] at hev
            rcases hev with rfl | hev
            · exact Or.inr rfl
            · exact ih (i + 1) (g i) r' evs' hw ev hev
      · obtain ⟨-, hevs⟩ := Prod.mk.inj (Option.some.inj h)
        rw [← hevs] at hev
        exact absurd hev (List.not_mem_nil ev)

/-- The polled extent is non-degenerate. -/
theorem pollExtent_nondegenerate (g : Nat → Extent) (fuel : Nat)
    (e : Extent) (evs : List Event) (h : pollExtent g fuel = some (e, evs)) :
    e.width ≠ 0 ∧ e.height ≠ 0 := by
  simp only [pollExtent] at h
  cases hw : waitLoop g fuel 1 (g 0) with
  | none => rw [hw] at h; exact absurd h (by simp)
  | some p =>
      obtain ⟨r, evs'⟩ := p
      rw [hw] at h
      obtain ⟨hr, -⟩ := Prod.mk.inj (Option.some.inj h)
      exact hr ▸ waitLoop_nondegenerate g fuel 1 (g 0) r evs' hw

/-- Every event emitted by the extent poll is a surface query or an event wait. -/
theorem pollExtent_events (g : Nat → Extent) (fuel : Nat)
    (e : Extent) (evs : List Event) (h : pollExtent g fuel = some (e, evs)) :
    ∀ ev ∈ evs, (∃ x, ev = Event.queryExtent x) ∨ ev = Event.waitEvents := by
  simp only [pollExtent] at h
  cases hw : waitLoop g fuel 1 (g 0) with
  | none => rw [hw] at h; exact absurd h (by simp)
  | some p =>
      obtain ⟨r, evs'⟩ := p
      rw [hw] at h
      obtain ⟨-, hevs⟩ := Prod.mk.inj (Option.some.inj h)
      intro ev hev
      rw [← hevs, List.mem_cons] at hev
      rcases hev with rfl | hev
      · exact Or.inl ⟨g 0, rfl⟩
      · exact waitLoop_events g fuel 1 (g 0) r evs' hw ev hev

/-- Characterization of a successful `recreateSwapChain` when a chain already
exists (the `else` branch of first_app.cpp lines 95-104 followed by line 107):
the new chain carries the polled extent and the platform-chosen image count,
the pipeline is rebuilt, the layout and model are untouched, and the command
buffer set is reused or reallocated according to the image-count comparison. -/
theorem recreateSwapChain_spec (s : AppState) (c₀ : SwapChainObj)
    (g : Nat → Extent) (fuel newCount : Nat) (s' : AppState) (tr : List Event)
    (hchain : s.swapChain = some c₀)
    (h : recreateSwapChain s g fuel newCount = some (s', tr)) :
    ∃ e pollEvs, pollExtent g fuel = some (e, pollEvs) ∧
      s'.swapChain = some ⟨e, newCount⟩ ∧
      s'.pipelineGen = s.pipelineGen + 1 ∧
      s'.pipelineLayout = s.pipelineLayout ∧
      s'.lveModel = s.lveModel ∧
      (newCount = s.commandBuffers.length →
        s'.commandBuffers = s.commandBuffers ∧ s'.nextHandle = s.nextHandle ∧
        tr = pollEvs ++ [Event.deviceWaitIdle, Event.constructChain e true,
          Event.createPipeline]) ∧
      (newCount ≠ s.commandBuffers.length →
        s'.commandBuffers = (List.range newCount).map (fun i => s.nextHandle + i) ∧
        s'.nextHandle = s.nextHandle + newCount ∧
        tr = pollEvs ++ [Event.deviceWaitIdle, Event.constructChain e true,
          Event.freeCmdBuffers, Event.allocCmdBuffers newCount,
          Event.createPipeline]) := by
  cases hp : pollExtent g fuel with
  | none => simp [recreateSwapChain, hp] at h
  | some p =>
      obtain ⟨e, pollEvs⟩ := p
      simp only [recreateSwapChain, hp, hchain] at h
      refine ⟨e, pollEvs, rfl, ?_⟩
      split at h
      · rename_i hne
        obtain ⟨hs, ht⟩ := Prod.mk.inj (Option.some.inj h)
        subst hs; subst ht
        refine ⟨rfl, rfl, rfl, rfl, ?_, ?_⟩
        · intro hk; exact absurd hk hne
        · intro _
          refine ⟨?_, ?_, by simp⟩
          · simp [createPipeline, createCommandBuffers, freeCommandBuffers]
          · simp [createPipeline, createCommandBuffers, freeCommandBuffers]
      · rename_i hne
        push_neg at hne
        obtain ⟨hs, ht⟩ := Prod.mk.inj (Option.some.inj h)
        subst hs; subst ht
        refine ⟨rfl, rfl, rfl, rfl, ?_, ?_⟩
        · intro _; exact ⟨rfl, rfl, by simp⟩
        · intro hk; exact absurd hne hk

/-! ### C1 -/

/-- C1: after any `recreateSwapChain` performed while a chain is live (every
Recreating transition of the running loop), the command buffer set size equals
the new chain's image count; and whenever the new image count differs from the
current set size, the set is freed and reallocated within the recreation,
before any command recording (the recreation trace records nothing). -/
theorem firstApp_C1_commandBufferSet_matches_imageCount
    (s : AppState) (c₀ : SwapChainObj) (g : Nat → Extent)
    (fuel newCount : Nat) (s' : AppState) (tr : List Event)
    (hchain : s.swapChain = some c₀)
    (h : recreateSwapChain s g fuel newCount = some (s', tr)) :
    (∃ c, s'.swapChain = some c ∧ s'.commandBuffers.length = c.imageCount) ∧
    (newCount ≠ s.commandBuffers.length →
      Event.freeCmdBuffers ∈ tr ∧ Event.allocCmdBuffers newCount ∈ tr ∧
      ∀ i, Event.beginRecord i ∉ tr) := by
  obtain ⟨e, pollEvs, hp, hsw, -, -, -, heq, hneq⟩ :=
    recreateSwapChain_spec s c₀ g fuel newCount s' tr hchain h
  constructor
  · refine ⟨⟨e, newCount⟩, hsw, ?_⟩
    by_cases hk : newCount = s.commandBuffers.length
    · obtain ⟨hc, -, -⟩ := heq hk
      rw [hc, ← hk]
    · obtain ⟨hc, -, -⟩ := hneq hk
      simp [hc]
  · intro hk
    obtain ⟨-, -, htr⟩ := hneq hk
    subst htr
    refine ⟨by simp, by simp, ?_⟩
    intro i hmem
    rcases List.mem_append.mp hmem with hm | hm
    · rcases pollExtent_events g fuel e pollEvs hp _ hm with ⟨x, hx⟩ | hx <;> simp at hx
    · simp at hm

/-- Witness for C1: recreation at 800×600 with the image count changing 3→2. -/
theorem firstApp_C1_witness :
    (∃ c, exStateAfterRealloc.swapChain = some c ∧
        exStateAfterRealloc.commandBuffers.length = c.imageCount) ∧
    (2 ≠ exState.commandBuffers.length →
      Event.freeCmdBuffers ∈ exTraceRealloc ∧
      Event.allocCmdBuffers 2 ∈ exTraceRealloc ∧
      ∀ i, Event.beginRecord i ∉ exTraceRealloc) :=
  firstApp_C1_commandBufferSet_matches_imageCount exState exChain exG 0 2
    exStateAfterRealloc exTraceRealloc rfl rfl

/-! ### C2 -/

/-- C2: the extent passed to every presentation-chain construction — the
initial one (`lveSwapChain == nullptr` branch) and every recreation — is
non-zero in both dimensions: `recreateSwapChain` polls on surface events
until the reported extent is non-degenerate before constructing. -/
theorem firstApp_C2_construction_extent_nonzero
    (s : AppState) (g : Nat → Extent) (fuel newCount : Nat)
    (s' : AppState) (tr : List Event)
    (h : recreateSwapChain s g fuel newCount = some (s', tr)) :
    ∀ e b, Event.constructChain e b ∈ tr → e.width ≠ 0 ∧ e.height ≠ 0 := by
  intro e b hmem
  cases hsw : s.swapChain with
  | none =>
      cases hp : pollExtent g fuel with
      | none => simp [recreateSwapChain, hp] at h
      | some p =>
          obtain ⟨e0, pollEvs⟩ := p
          have hnd := pollExtent_nondegenerate g fuel e0 pollEvs hp
          have hpe := pollExtent_events g fuel e0 pollEvs hp
          simp only [recreateSwapChain, hp, hsw] at h
          obtain ⟨-, ht⟩ := Prod.mk.inj (Option.some.inj h)
          subst ht
          rcases List.mem_append.mp hmem with hm | hm
          · rcases List.mem_append.mp hm with hm | hm
            · rcases hpe _ hm with ⟨x, hx⟩ | hx <;> simp at hx
            · simp at hm
          · simp at hm
            obtain ⟨rfl, -⟩ := hm
            exact hnd
  | some c₀ =>
      obtain ⟨e0, pollEvs, hp, -, -, -, -, heq, hneq⟩ :=
        recreateSwapChain_spec s c₀ g fuel newCount s' tr hsw h
      have hnd := pollExtent_nondegenerate g fuel e0 pollEvs hp
      have hpe := pollExtent_events g fuel e0 pollEvs hp
      by_cases hk : newCount = s.commandBuffers.length
      · obtain ⟨-, -, htr⟩ := heq hk
        subst htr
        rcases List.mem_append.mp hmem with hm | hm
        · rcases hpe _ hm with ⟨x, hx⟩ | hx <;> simp at hx
        · simp at hm
          obtain ⟨rfl, -⟩ := hm
          exact hnd
      · obtain ⟨-, -, htr⟩ := hneq hk
        subst htr
        rcases List.mem_append.mp hmem with hm | hm
        · rcases hpe _ hm with ⟨x, hx⟩ | hx <;> simp at hx
        · simp at hm
          obtain ⟨rfl, -⟩ := hm
          exact hnd

/-- Witness for C2: the chain constructed at 800×600 has a non-zero extent. -/
theorem firstApp_C2_witness :
    (⟨800, 600⟩ : Extent).width ≠ 0 ∧ (⟨800, 600⟩ : Extent).height ≠ 0 :=
  firstApp_C2_construction_extent_nonzero exState exG 0 3 exStateAfterReuse
    exTraceReuse rfl ⟨800, 600⟩ true (by decide)

/-- The extent poll's first event is the initial surface query. -/
theorem pollExtent_head (g : Nat → Extent) (fuel : Nat) (e : Extent)
    (evs : List Event) (h : pollExtent g fuel = some (e, evs)) :
    evs.head? = some (Event.queryExtent (g 0)) := by
  simp only [pollExtent] at h
  cases hw : waitLoop g fuel 1 (g 0) with
  | none => rw [hw] at h; exact absurd h (by simp)
  | some p =>
      obtain ⟨r, evs'⟩ := p
      rw [hw] at h
      obtain ⟨-, hevs⟩ := Prod.mk.inj (Option.some.inj h)
      rw [← hevs]
      rfl

/-- When the surface stably reports one non-degenerate extent, the poll
returns it immediately after a single query. -/
theorem pollExtent_const (g : Nat → Extent) (ecur : Extent) (fuel : Nat)
    (hg : ∀ i, g i = ecur) (hnd : ¬(ecur.width = 0 ∨ ecur.height = 0)) :
    pollExtent g fuel = some (ecur, [Event.queryExtent ecur]) := by
  cases fuel <;> simp [pollExtent, waitLoop, hg, hnd]

/-- A successful `recordCommandBuffer` emits exactly `recordedTrace`. -/
theorem recordCommandBuffer_ok (i : Nat) :
    recordCommandBuffer i VkResult.success VkResult.success =
      Except.ok (recordedTrace i) := rfl

/-- A successful `recreateSwapChain` installs a chain carrying the polled
extent and the platform-chosen image count, its trace contains the chain
construction, and every trace event is a surface query, an event wait, a
device wait, a chain construction, a command-buffer free/alloc, or the
pipeline rebuild (in particular: no recording, drawing or submission). -/
theorem recreateSwapChain_chain_and_trace (s : AppState) (g : Nat → Extent)
    (fuel newCount : Nat) (s' : AppState) (tr : List Event)
    (h : recreateSwapChain s g fuel newCount = some (s', tr)) :
    ∃ e pollEvs b, pollExtent g fuel = some (e, pollEvs) ∧
      s'.swapChain = some ⟨e, newCount⟩ ∧
      Event.constructChain e b ∈ tr ∧
      ∀ ev ∈ tr, (∃ x, ev = Event.queryExtent x) ∨ ev = Event.waitEvents ∨
        ev = Event.deviceWaitIdle ∨ (∃ e' b', ev = Event.constructChain e' b') ∨
        ev = Event.freeCmdBuffers ∨ (∃ n, ev = Event.allocCmdBuffers n) ∨
        ev = Event.createPipeline := by
  cases hp : pollExtent g fuel with
  | none => simp [recreateSwapChain, hp] at h
  | some p =>
      obtain ⟨e, pollEvs⟩ := p
      have hpe := pollExtent_events g fuel e pollEvs hp
      cases hsw : s.swapChain with
      | none =>
          simp only [recreateSwapChain, hp, hsw] at h
          obtain ⟨hs, ht⟩ := Prod.mk.inj (Option.some.inj h)
          subst ht
          refine ⟨e, pollEvs, false, rfl, by rw [← hs]; rfl, by simp, ?_⟩
          intro ev hev
          rcases List.mem_append.mp hev with hm | hm
          · rcases List.mem_append.mp hm with hm | hm
            · rcases hpe _ hm with ⟨x, hx⟩ | hx
              · exact Or.inl ⟨x, hx⟩
              · exact Or.inr (Or.inl hx)
            · simp only [List.mem_singleton] at hm
              subst hm
              exact Or.inr (Or.inr (Or.inl rfl))
          · rw [List.mem_cons] at hm
            rcases hm with rfl | hm
            · exact Or.inr (Or.inr (Or.inr (Or.inl ⟨e, false, rfl⟩)))
            · simp only [List.mem_singleton] at hm
              subst hm
              exact Or.inr (Or.inr (Or.inr (Or.inr (Or.inr (Or.inr rfl)))))
      | some c₀ =>
          obtain ⟨e', pollEvs', hp', hsw', -, -, -, heq, hneq⟩ :=
            recreateSwapChain_spec s c₀ g fuel newCount s' tr hsw h
          rw [hp] at hp'
          obtain ⟨he, hpv⟩ := Prod.mk.inj (Option.some.inj hp')
          subst he; subst hpv
          by_cases hk : newCount = s.commandBuffers.length
          · obtain ⟨-, -, htr⟩ := heq hk
            subst htr
            refine ⟨e, pollEvs, true, rfl, hsw', by simp, ?_⟩
            intro ev hev
            rcases List.mem_append.mp hev with hm | hm
            · rcases hpe _ hm with ⟨x, hx⟩ | hx
              · exact Or.inl ⟨x, hx⟩
              · exact Or.inr (Or.inl hx)
            · rw [List.mem_cons] at hm
              rcases hm with rfl | hm
              · exact Or.inr (Or.inr (Or.inl rfl))
              rw [List.mem_cons] at hm
              rcases hm with rfl | hm
              · exact Or.inr (Or.inr (Or.inr (Or.inl ⟨e, true, rfl⟩)))
              · simp only [List.mem_singleton] at hm
                subst hm
                exact Or.inr (Or.inr (Or.inr (Or.inr (Or.inr (Or.inr rfl)))))
          · obtain ⟨-, -, htr⟩ := hneq hk
            subst htr
            refine ⟨e, pollEvs, true, rfl, hsw', by simp, ?_⟩
            intro ev hev
            rcases List.mem_append.mp hev with hm | hm
            · rcases hpe _ hm with ⟨x, hx⟩ | hx
              · exact Or.inl ⟨x, hx⟩
              · exact Or.inr (Or.inl hx)
            · rw [List.mem_cons] at hm
              rcases hm with rfl | hm
              · exact Or.inr (Or.inr (Or.inl rfl))
              rw [List.mem_cons] at hm
              rcases hm with rfl | hm
              · exact Or.inr (Or.inr (Or.inr (Or.inl ⟨e, true, rfl⟩)))
              rw [List.mem_cons] at hm
              rcases hm with rfl | hm
              · exact Or.inr (Or.inr (Or.inr (Or.inr (Or.inl rfl))))
              rw [List.mem_cons] at hm
              rcases hm with rfl | hm
              · exact Or.inr (Or.inr (Or.inr (Or.inr (Or.inr (Or.inl ⟨newCount, rfl⟩)))))
              · simp only [List.mem_singleton] at hm
                subst hm
                exact Or.inr (Or.inr (Or.inr (Or.inr (Or.inr (Or.inr rfl)))))

/-! ### C3 -/

/-- C3: every Recreating transition (a `recreateSwapChain` with a live chain)
performs these steps in order: it re-queries the surface extent first (the
trace starts with a query), polls surface events while the extent is
degenerate (all preceding events are queries or waits, and the extent used is
non-degenerate), waits for the device to go idle, constructs the new chain
passing the old one, frees and reallocates the command buffer set exactly
when the image count differs from the current set size, then rebuilds the
render pipeline unconditionally, and returns. -/
theorem firstApp_C3_recreation_step_order
    (s : AppState) (c₀ : SwapChainObj) (g : Nat → Extent)
    (fuel newCount : Nat) (s' : AppState) (tr : List Event)
    (hchain : s.swapChain = some c₀)
    (h : recreateSwapChain s g fuel newCount = some (s', tr)) :
    ∃ e pollEvs,
      pollExtent g fuel = some (e, pollEvs) ∧
      pollEvs.head? = some (Event.queryExtent (g 0)) ∧
      (∀ ev ∈ pollEvs, (∃ x, ev = Event.queryExtent x) ∨ ev = Event.waitEvents) ∧
      e.width ≠ 0 ∧ e.height ≠ 0 ∧
      tr = pollEvs ++ [Event.deviceWaitIdle, Event.constructChain e true] ++
        (if newCount = s.commandBuffers.length then []
         else [Event.freeCmdBuffers, Event.allocCmdBuffers newCount]) ++
        [Event.createPipeline] ∧
      s'.pipelineGen = s.pipelineGen + 1 := by
  obtain ⟨e, pollEvs, hp, -, hpg, -, -, heq, hneq⟩ :=
    recreateSwapChain_spec s c₀ g fuel newCount s' tr hchain h
  obtain ⟨hw, hh⟩ := pollExtent_nondegenerate g fuel e pollEvs hp
  refine ⟨e, pollEvs, hp, pollExtent_head g fuel e pollEvs hp,
    pollExtent_events g fuel e pollEvs hp, hw, hh, ?_, hpg⟩
  by_cases hk : newCount = s.commandBuffers.length
  · obtain ⟨-, -, htr⟩ := heq hk
    rw [htr, if_pos hk]
    simp
  · obtain ⟨-, -, htr⟩ := hneq hk
    rw [htr, if_neg hk]
    simp

/-- Witness for C3: recreation at 800×600 with the image count staying 3. -/
theorem firstApp_C3_witness :
    ∃ e pollEvs,
      pollExtent exG 0 = some (e, pollEvs) ∧
      pollEvs.head? = some (Event.queryExtent (exG 0)) ∧
      (∀ ev ∈ pollEvs, (∃ x, ev = Event.queryExtent x) ∨ ev = Event.waitEvents) ∧
      e.width ≠ 0 ∧ e.height ≠ 0 ∧
      exTraceReuse = pollEvs ++ [Event.deviceWaitIdle, Event.constructChain e true] ++
        (if 3 = exState.commandBuffers.length then []
         else [Event.freeCmdBuffers, Event.allocCmdBuffers 3]) ++
        [Event.createPipeline] ∧
      exStateAfterReuse.pipelineGen = exState.pipelineGen + 1 :=
  firstApp_C3_recreation_step_order exState exChain exG 0 3
    exStateAfterReuse exTraceReuse rfl rfl

/-! ### C7 -/

/-- C7: when the new chain's image count equals the current command buffer set
size, the recreation leaves the set untouched (identical handles, no free and
no allocation events, allocator counter unchanged) while the pipeline is still
rebuilt; aside from the chain and the pipeline, the coordinator's state — the
pipeline layout, the model and the allocator counter — is unmodified. -/
theorem firstApp_C7_commandBuffers_reused_when_count_unchanged
    (s : AppState) (c₀ : SwapChainObj) (g : Nat → Extent)
    (fuel newCount : Nat) (s' : AppState) (tr : List Event)
    (hchain : s.swapChain = some c₀)
    (hk : newCount = s.commandBuffers.length)
    (h : recreateSwapChain s g fuel newCount = some (s', tr)) :
    s'.commandBuffers = s.commandBuffers ∧
    Event.freeCmdBuffers ∉ tr ∧ (∀ n, Event.allocCmdBuffers n ∉ tr) ∧
    s'.pipelineGen = s.pipelineGen + 1 ∧
    s'.nextHandle = s.nextHandle ∧
    s'.pipelineLayout = s.pipelineLayout ∧
    s'.lveModel = s.lveModel ∧
    (∃ e, s'.swapChain = some ⟨e, newCount⟩) := by
  obtain ⟨e, pollEvs, hp, hsw, hpg, hpl, hlm, heq, -⟩ :=
    recreateSwapChain_spec s c₀ g fuel newCount s' tr hchain h
  obtain ⟨hc, hn, htr⟩ := heq hk
  have hpe := pollExtent_events g fuel e pollEvs hp
  subst htr
  refine ⟨hc, ?_, ?_, hpg, hn, hpl, hlm, e, hsw⟩
  · intro hmem
    rcases List.mem_append.mp hmem with hm | hm
    · rcases hpe _ hm with ⟨x, hx⟩ | hx <;> simp at hx
    · simp at hm
  · intro n hmem
    rcases List.mem_append.mp hmem with hm | hm
    · rcases hpe _ hm with ⟨x, hx⟩ | hx <;> simp at hx
    · simp at hm

/-- Witness for C7: recreation at 800×600 keeping image count 3. -/
theorem firstApp_C7_witness :
    exStateAfterReuse.commandBuffers = exState.commandBuffers ∧
    Event.freeCmdBuffers ∉ exTraceReuse ∧
    (∀ n, Event.allocCmdBuffers n ∉ exTraceReuse) ∧
    exStateAfterReuse.pipelineGen = exState.pipelineGen + 1 ∧
    exStateAfterReuse.nextHandle = exState.nextHandle ∧
    exStateAfterReuse.pipelineLayout = exState.pipelineLayout ∧
    exStateAfterReuse.lveModel = exState.lveModel ∧
    (∃ e, exStateAfterReuse.swapChain = some ⟨e, 3⟩) :=
  firstApp_C7_commandBuffers_reused_when_count_unchanged exState exChain exG 0 3
    exStateAfterReuse exTraceReuse rfl rfl rfl

/-! ### C9 -/

/-- The fractal generator only appends: vertices already present pass through
unchanged, and the appended block is independent of them. -/
theorem Sierpinski_append (d : Nat) :
    ∀ w h px py : ℚ, ∀ vs tail : List Vertex,
      Sierpinski d w h px py (vs ++ tail) = vs ++ Sierpinski d w h px py tail := by
  induction d with
  | zero =>
      intro w h px py vs tail
      simp [Sierpinski]
  | succ d ih =>
      intro w h px py vs tail
      simp only [Sierpinski]
      rw [ih, ih, ih]

/-- The fractal generator appends exactly `3 * 3 ^ depth` vertices. -/
theorem Sierpinski_length (d : Nat) :
    ∀ w h px py : ℚ, ∀ vs : List Vertex,
      (Sierpinski d w h px py vs).length = vs.length + 3 * 3 ^ d := by
  induction d with
  | zero =>
      intro w h px py vs
      simp [Sierpinski]
  | succ d ih =>
      intro w h px py vs
      simp only [Sierpinski]
      rw [ih, ih, ih]
      ring

/-- C9: `Sierpinski` is a total, pure function of (depth, geometry bounds):
for every depth `d` and bounds it terminates (it is a structurally recursive
Lean function) appending exactly `3 * 3 ^ d` vertices; the previously present
list elements are unchanged and the appended block depends only on the
arguments (it equals the output on the empty list, deterministically). -/
theorem firstApp_C9_sierpinski_pure
    (d : Nat) (w h px py : ℚ) (vs : List Vertex) :
    (Sierpinski d w h px py vs).length = vs.length + 3 * 3 ^ d ∧
    Sierpinski d w h px py vs = vs ++ Sierpinski d w h px py [] := by
  refine ⟨Sierpinski_length d w h px py vs, ?_⟩
  have := Sierpinski_append d w h px py vs []
  rwa [List.append_nil] at this

/-! ### C6 -/

/-- C6: the per-instance push-constant payload is a deterministic pure
function of the instance index: a successful recording pushes exactly
`pushData 0, …, pushData 3` (one per instance, in order), and for every `j`
the payload's horizontal offset is the constant 0, its vertical offset equals
`-0.4 + j·0.25`, and its color's blue channel equals `0.2 + 0.2·j`. -/
theorem firstApp_C6_pushConstants_deterministic
    (i : Nat) (evs : List Event)
    (h : recordCommandBuffer i VkResult.success VkResult.success = Except.ok evs) :
    (evs.filterMap fun ev => match ev with
      | Event.pushConstants _ _ _ d => some d
      | _ => none) = [pushData 0, pushData 1, pushData 2, pushData 3] ∧
    ∀ j : Nat, (pushData j).offset.1 = 0 ∧
      (pushData j).offset.2 = -0.4 + (j : ℚ) * 0.25 ∧
      (pushData j).color.2.2 = 0.2 + 0.2 * (j : ℚ) := by
  rw [recordCommandBuffer_ok] at h
  obtain rfl := Except.ok.inj h
  exact ⟨rfl, fun j => ⟨rfl, rfl, rfl⟩⟩

/-- Witness for C6 on image index 0. -/
theorem firstApp_C6_witness :
    ((recordedTrace 0).filterMap fun ev => match ev with
      | Event.pushConstants _ _ _ d => some d
      | _ => none) = [pushData 0, pushData 1, pushData 2, pushData 3] ∧
    ∀ j : Nat, (pushData j).offset.1 = 0 ∧
      (pushData j).offset.2 = -0.4 + (j : ℚ) * 0.25 ∧
      (pushData j).color.2.2 = 0.2 + 0.2 * (j : ℚ) :=
  firstApp_C6_pushConstants_deterministic 0 (recordedTrace 0) rfl

/-! ### C10 -/

/-- C10: the pipeline layout declares exactly one push-constant range — offset
0, size `sizeof(SimplePushConstantData)`, visible to the vertex and fragment
stages — and every push-constant update a successful recording emits uses
exactly those stage flags, offset and size, hence lies within the declared
range. -/
theorem firstApp_C10_pushes_within_declared_range
    (i : Nat) (evs : List Event)
    (h : recordCommandBuffer i VkResult.success VkResult.success = Except.ok evs) :
    createPipelineLayout.pushConstantRanges =
      [{ stageFlags := VK_SHADER_STAGE_VERTEX_BIT ||| VK_SHADER_STAGE_FRAGMENT_BIT
         offset := 0
         size := sizeofSimplePushConstantData }] ∧
    ∀ sf off sz d, Event.pushConstants sf off sz d ∈ evs →
      ∃ r, createPipelineLayout.pushConstantRanges = [r] ∧
        sf = r.stageFlags ∧ off = r.offset ∧ sz = r.size ∧
        r.offset ≤ off ∧ off + sz ≤ r.offset + r.size := by
  rw [recordCommandBuffer_ok] at h
  obtain rfl := Except.ok.inj h
  refine ⟨rfl, ?_⟩
  intro sf off sz d hmem
  refine ⟨{ stageFlags := VK_SHADER_STAGE_VERTEX_BIT ||| VK_SHADER_STAGE_FRAGMENT_BIT
            offset := 0
            size := sizeofSimplePushConstantData }, rfl, ?_⟩
  simp only [recordedTrace, List.mem_cons, List.not_mem_nil, or_false] at hmem
  rcases hmem with hx | hx | hx | hx | hx | hx | hx | hx | hx | hx | hx | hx | hx | hx | hx | hx <;>
    cases hx <;> exact ⟨rfl, rfl, rfl, Nat.le_refl _, Nat.le_refl _⟩

/-- Witness for C10 on image index 0. -/
theorem firstApp_C10_witness :
    createPipelineLayout.pushConstantRanges =
      [{ stageFlags := VK_SHADER_STAGE_VERTEX_BIT ||| VK_SHADER_STAGE_FRAGMENT_BIT
         offset := 0
         size := sizeofSimplePushConstantData }] ∧
    ∀ sf off sz d, Event.pushConstants sf off sz d ∈ recordedTrace 0 →
      ∃ r, createPipelineLayout.pushConstantRanges = [r] ∧
        sf = r.stageFlags ∧ off = r.offset ∧ sz = r.size ∧
        r.offset ≤ off ∧ off + sz ≤ r.offset + r.size :=
  firstApp_C10_pushes_within_declared_range 0 (recordedTrace 0) rfl

/-! ### C4 -/

/-- C4: when acquire returns out-of-date (Stale) the iteration records nothing
and submits nothing — the trace contains no begin-recording, no draw and no
submission — the chain is rebuilt (the Recreating transition) and the call
returns to the loop; with the surface stably reporting the current
non-degenerate extent `ecur`, the rebuilt chain — the one the next cycle
acquires from — carries extent `ecur`. -/
theorem firstApp_C4_stale_acquire_skips_frame
    (s : AppState) (inp : FrameInput) (s' : AppState) (tr : List Event)
    (ecur : Extent)
    (hacq : inp.acquireResult = VkResult.errorOutOfDateKHR)
    (hg : ∀ i, inp.g i = ecur)
    (hnd : ¬(ecur.width = 0 ∨ ecur.height = 0))
    (h : drawFrame s inp = some (Except.ok (s', tr))) :
    (∀ i, Event.beginRecord i ∉ tr) ∧ Event.draw ∉ tr ∧
    (∀ i r, Event.submit i r ∉ tr) ∧
    (∃ e b, Event.constructChain e b ∈ tr) ∧
    s'.swapChain = some ⟨ecur, inp.newImageCount⟩ := by
  simp only [drawFrame, hacq, reduceIte] at h
  cases hr : recreateSwapChain s inp.g inp.fuel inp.newImageCount with
  | none => rw [hr] at h; exact absurd h (by simp)
  | some p =>
      obtain ⟨s'', tr'⟩ := p
      rw [hr] at h
      simp only [Option.some.injEq, Except.ok.injEq, Prod.mk.injEq] at h
      obtain ⟨hs, ht⟩ := h
      subst hs; subst ht
      obtain ⟨e, pollEvs, b, hp, hsw, hcon, htr⟩ :=
        recreateSwapChain_chain_and_trace s inp.g inp.fuel inp.newImageCount s'' tr' hr
      have hpc := pollExtent_const inp.g ecur inp.fuel hg hnd
      rw [hpc] at hp
      obtain ⟨he, -⟩ := Prod.mk.inj (Option.some.inj hp)
      subst he
      refine ⟨?_, ?_, ?_, ⟨ecur, b, List.mem_cons_of_mem _ hcon⟩, hsw⟩
      · intro i hm
        rcases List.mem_cons.mp hm with hx | hx
        · cases hx
        · rcases htr _ hx with ⟨x, hx'⟩ | hx' | hx' | ⟨e', b', hx'⟩ | hx' | ⟨n, hx'⟩ | hx' <;>
            cases hx'
      · intro hm
        rcases List.mem_cons.mp hm with hx | hx
        · cases hx
        · rcases htr _ hx with ⟨x, hx'⟩ | hx' | hx' | ⟨e', b', hx'⟩ | hx' | ⟨n, hx'⟩ | hx' <;>
            cases hx'
      · intro i r hm
        rcases List.mem_cons.mp hm with hx | hx
        · cases hx
        · rcases htr _ hx with ⟨x, hx'⟩ | hx' | hx' | ⟨e', b', hx'⟩ | hx' | ⟨n, hx'⟩ | hx' <;>
            cases hx'

/-- Witness for C4: stale acquire at a stable 800×600 surface. -/
theorem firstApp_C4_witness :
    (∀ i, Event.beginRecord i ∉ exTraceStale) ∧ Event.draw ∉ exTraceStale ∧
    (∀ i r, Event.submit i r ∉ exTraceStale) ∧
    (∃ e b, Event.constructChain e b ∈ exTraceStale) ∧
    exStateAfterReuse.swapChain = some ⟨⟨800, 600⟩, exInpStale.newImageCount⟩ :=
  firstApp_C4_stale_acquire_skips_frame exState exInpStale exStateAfterReuse
    exTraceStale ⟨800, 600⟩ rfl (fun _ => rfl) (by decide) rfl

/-! ### C5 -/

/-- C5: failures at begin/end of recording and unexpected submission results
are fatal — `drawFrame` returns the corresponding thrown error, which aborts
`run()` without retry — while the expected out-of-date/suboptimal/resize
signals are handled by recreation and never produce an error. -/
theorem firstApp_C5_fatal_errors_thrown (s : AppState) (inp : FrameInput) :
    ((inp.acquireResult = VkResult.success ∨ inp.acquireResult = VkResult.suboptimalKHR) →
      inp.beginResult ≠ VkResult.success →
      drawFrame s inp = some (Except.error ("failed to begin recording command buffer!"))) ∧
    ((inp.acquireResult = VkResult.success ∨ inp.acquireResult = VkResult.suboptimalKHR) →
      inp.beginResult = VkResult.success → inp.endResult ≠ VkResult.success →
      drawFrame s inp = some (Except.error ("failed to record command buffer!"))) ∧
    ((inp.acquireResult = VkResult.success ∨ inp.acquireResult = VkResult.suboptimalKHR) →
      inp.beginResult = VkResult.success → inp.endResult = VkResult.success →
      inp.submitResult ≠ VkResult.success →
      inp.submitResult ≠ VkResult.suboptimalKHR →
      inp.submitResult ≠ VkResult.errorOutOfDateKHR →
      inp.resized = false →
      drawFrame s inp = some (Except.error ("failed to present swap chain image!"))) ∧
    (inp.acquireResult ≠ VkResult.success →
      inp.acquireResult ≠ VkResult.suboptimalKHR →
      inp.acquireResult ≠ VkResult.errorOutOfDateKHR →
      drawFrame s inp = some (Except.error ("failed to acquire swap chain image!"))) ∧
    (inp.acquireResult = VkResult.errorOutOfDateKHR →
      ∀ m, drawFrame s inp ≠ some (Except.error m)) ∧
    ((inp.acquireResult = VkResult.success ∨ inp.acquireResult = VkResult.suboptimalKHR) →
      inp.beginResult = VkResult.success → inp.endResult = VkResult.success →
      (inp.submitResult = VkResult.errorOutOfDateKHR ∨
        inp.submitResult = VkResult.suboptimalKHR ∨ inp.resized = true) →
      ∀ m, drawFrame s inp ≠ some (Except.error m)) := by
  refine ⟨?_, ?_, ?_, ?_, ?_, ?_⟩
  · intro hacq hbeg
    rcases hacq with hacq | hacq <;>
      simp [drawFrame, recordCommandBuffer, hacq, hbeg]
  · intro hacq hbeg hend
    rcases hacq with hacq | hacq <;>
      simp [drawFrame, recordCommandBuffer, hacq, hbeg, hend]
  · intro hacq hbeg hend hs1 hs2 hs3 hres
    rcases hacq with hacq | hacq <;>
      simp [drawFrame, recordCommandBuffer, hacq, hbeg, hend, hs1, hs2, hs3, hres]
  · intro h1 h2 h3
    simp [drawFrame, h1, h2, h3]
  · intro hacq m
    simp only [drawFrame, hacq, reduceIte]
    cases hr : recreateSwapChain s inp.g inp.fuel inp.newImageCount with
    | none => simp [hr]
    | some p =>
        obtain ⟨s'', tr'⟩ := p
        simp [hr]
  · intro hacq hbeg hend hsub m hcontra
    cases hr : recreateSwapChain s inp.g inp.fuel inp.newImageCount with
    | none =>
        rcases hacq with hacq | hacq <;> rcases hsub with hs | hs | hs <;>
          simp [drawFrame, recordCommandBuffer, hacq, hbeg, hend, hs, hr] at hcontra
    | some p =>
        obtain ⟨s'', tr'⟩ := p
        rcases hacq with hacq | hacq <;> rcases hsub with hs | hs | hs <;>
          simp [drawFrame, recordCommandBuffer, hacq, hbeg, hend, hs, hr] at hcontra

/-- Witness for C5: the four fatal inputs each produce the thrown error. -/
theorem firstApp_C5_witness :
    drawFrame exState exInpBeginFail =
      some (Except.error ("failed to begin recording command buffer!")) ∧
    drawFrame exState exInpEndFail =
      some (Except.error ("failed to record command buffer!")) ∧
    drawFrame exState exInpPresentFail =
      some (Except.error ("failed to present swap chain image!")) ∧
    drawFrame exState exInpAcquireFail =
      some (Except.error ("failed to acquire swap chain image!")) :=
  ⟨(firstApp_C5_fatal_errors_thrown exState exInpBeginFail).1 (Or.inl rfl) (by decide),
   (firstApp_C5_fatal_errors_thrown exState exInpEndFail).2.1 (Or.inl rfl) rfl (by decide),
   (firstApp_C5_fatal_errors_thrown exState exInpPresentFail).2.2.1 (Or.inl rfl) rfl rfl
     (by decide) (by decide) (by decide) rfl,
   (firstApp_C5_fatal_errors_thrown exState exInpAcquireFail).2.2.2.1
     (by decide) (by decide) (by decide)⟩

/-! ### C8 -/

/-- C8 counterexample: with acquire returning SUBOPTIMAL but the submission
succeeding and no resize flagged, `drawFrame` records and submits the frame,
yet the chain is NOT rebuilt before the next acquisition cycle: the trace
contains no chain construction and the post-state still holds the original
chain, from which the next cycle will acquire. -/
theorem firstApp_C8_counterexample :
    drawFrame exState exInpSubopt = some (Except.ok (exState, exTraceSubopt)) ∧
    (∀ e b, Event.constructChain e b ∉ exTraceSubopt) ∧
    exState.swapChain = some exChain := by
  refine ⟨rfl, ?_, rfl⟩
  intro e b hm
  simp [exTraceSubopt, recordedTrace] at hm

/-- C8 (amended): on a SUBOPTIMAL acquire the acquisition is treated as valid —
the frame is recorded (begin and end) and submitted — but the chain is rebuilt
within that iteration if and only if the submission itself reports
out-of-date or suboptimal, or the window's resize flag is set; a clean
submission leaves the chain untouched until some later signal. -/
theorem firstApp_C8_suboptimal_acquire_records_and_submits
    (s : AppState) (inp : FrameInput) (s' : AppState) (tr : List Event)
    (hacq : inp.acquireResult = VkResult.suboptimalKHR)
    (h : drawFrame s inp = some (Except.ok (s', tr))) :
    Event.beginRecord inp.imageIndex ∈ tr ∧
    Event.endRecord inp.imageIndex ∈ tr ∧
    Event.submit inp.imageIndex inp.submitResult ∈ tr ∧
    ((inp.submitResult = VkResult.errorOutOfDateKHR ∨
      inp.submitResult = VkResult.suboptimalKHR ∨ inp.resized = true) ↔
      ∃ e b, Event.constructChain e b ∈ tr) := by
  have hbeg : inp.beginResult = VkResult.success := by
    by_contra hbeg
    simp [drawFrame, recordCommandBuffer, hacq, hbeg] at h
  have hend : inp.endResult = VkResult.success := by
    by_contra hend
    simp [drawFrame, recordCommandBuffer, hacq, hbeg, hend] at h
  have hrec : recordCommandBuffer inp.imageIndex inp.beginResult inp.endResult =
      Except.ok (recordedTrace inp.imageIndex) := by
    rw [hbeg, hend, recordCommandBuffer_ok]
  by_cases hsub : inp.submitResult = VkResult.errorOutOfDateKHR ∨
      inp.submitResult = VkResult.suboptimalKHR ∨ inp.resized = true
  · cases hr : recreateSwapChain s inp.g inp.fuel inp.newImageCount with
    | none =>
        rcases hsub with hs | hs | hs <;>
          simp [drawFrame, hacq, hrec, hs, hr] at h
    | some p =>
        obtain ⟨s'', tr'⟩ := p
        obtain ⟨e, pollEvs, b, -, -, hcon, -⟩ :=
          recreateSwapChain_chain_and_trace s inp.g inp.fuel inp.newImageCount s'' tr' hr
        have htr : Event.beginRecord inp.imageIndex ∈ tr ∧
            Event.endRecord inp.imageIndex ∈ tr ∧
            Event.submit inp.imageIndex inp.submitResult ∈ tr ∧
            Event.constructChain e b ∈ tr := by
          rcases hsub with hs | hs | hs <;>
            (simp [drawFrame, hacq, hrec, hs, hr] at h
             obtain ⟨-, htr⟩ := h
             subst htr
             refine ⟨by simp [recordedTrace], by simp [recordedTrace],
               by simp [recordedTrace, hs], by simp [hcon]⟩)
        exact ⟨htr.1, htr.2.1, htr.2.2.1,
          ⟨fun _ => ⟨e, b, htr.2.2.2⟩, fun _ => hsub⟩⟩
  · have hs1 : inp.submitResult ≠ VkResult.errorOutOfDateKHR := fun hx => hsub (Or.inl hx)
    have hs2 : inp.submitResult ≠ VkResult.suboptimalKHR := fun hx => hsub (Or.inr (Or.inl hx))
    have hres : inp.resized = false := by
      cases hv : inp.resized
      · rfl
      · exact absurd (Or.inr (Or.inr hv)) hsub
    have hss : inp.submitResult = VkResult.success := by
      by_contra hss
      simp [drawFrame, hacq, hrec, hs1, hs2, hres, hss] at h
    simp [drawFrame, hacq, hrec, hs1, hs2, hres, hss] at h
    obtain ⟨-, htr⟩ := h
    subst htr
    refine ⟨by simp [recordedTrace], by simp [recordedTrace],
      by simp [recordedTrace, hss], ?_⟩
    constructor
    · intro hc
      exact absurd hc hsub
    · rintro ⟨e, b, hm⟩
      simp [recordedTrace] at hm

/-- Witness for the amended C8: suboptimal acquire whose submission also
reports suboptimal, so the rebuild triggers in the same iteration. -/
theorem firstApp_C8_witness :
    Event.beginRecord exInpSuboptRebuild.imageIndex ∈ exTraceSuboptRebuild ∧
    Event.endRecord exInpSuboptRebuild.imageIndex ∈ exTraceSuboptRebuild ∧
    Event.submit exInpSuboptRebuild.imageIndex exInpSuboptRebuild.submitResult ∈
      exTraceSuboptRebuild ∧
    ((exInpSuboptRebuild.submitResult = VkResult.errorOutOfDateKHR ∨
      exInpSuboptRebuild.submitResult = VkResult.suboptimalKHR ∨
      exInpSuboptRebuild.resized = true) ↔
      ∃ e b, Event.constructChain e b ∈ exTraceSuboptRebuild) :=
  firstApp_C8_suboptimal_acquire_records_and_submits exState exInpSuboptRebuild
    exStateAfterReuse exTraceSuboptRebuild rfl rfl

end LveApp
